import Mathlib

/-!
Shallow embedding of `src/app.py` (geocalculo/geoipt-logs): an event-logging
backend that stores one JSON object per event in a blob store and aggregates a
day of events into a summary, a CSV and an optional notification email.

External effects are modelled as explicit parameters:
  - a listed blob is the joint outcome of `blob.download_as_text()` followed by
    `json.loads(...)`: `some v` when both succeed and yield the JSON value `v`,
    `none` when either raises (the per-object `try/except` skips it);
  - the SMTP login-and-send is an `Except String Unit` parameter (the error
    string is the Python `str(e)` of the raised exception);
  - `datetime.now(timezone.utc)` values are `FechaHora` parameters (the source
    calls `now` twice in `log_evento`: once at line 82 and once inside
    `_today_str()` at line 99, so the model takes two instants);
  - `uuid4().hex[:6]` is a `String` parameter (always six lowercase hex chars).
-/

/-- JSON values, as produced by `json.loads` and consumed by `json.dumps`.
Numbers are modelled as integers (the events this service builds only carry
integers); an object is an insertion-ordered association list, mirroring a
Python `dict`. -/
inductive Json where
  | null : Json
  | bool (b : Bool) : Json
  | num (n : Int) : Json
  | str (s : String) : Json
  | arr (xs : List Json) : Json
  | obj (kvs : List (String × Json)) : Json

mutual

/-- Decidable equality of JSON values, written by hand because the automatic
derivation does not handle this nested inductive. -/
def decEqJson : (a b : Json) → Decidable (a = b)
  | .null, .null => .isTrue rfl
  | .null, .bool _ => .isFalse (fun h => nomatch h)
  | .null, .num _ => .isFalse (fun h => nomatch h)
  | .null, .str _ => .isFalse (fun h => nomatch h)
  | .null, .arr _ => .isFalse (fun h => nomatch h)
  | .null, .obj _ => .isFalse (fun h => nomatch h)
  | .bool _, .null => .isFalse (fun h => nomatch h)
  | .bool x, .bool y =>
      if h : x = y then .isTrue (by rw [h])
      else .isFalse (by intro hh; injection hh; contradiction)
  | .bool _, .num _ => .isFalse (fun h => nomatch h)
  | .bool _, .str _ => .isFalse (fun h => nomatch h)
  | .bool _, .arr _ => .isFalse (fun h => nomatch h)
  | .bool _, .obj _ => .isFalse (fun h => nomatch h)
  | .num _, .null => .isFalse (fun h => nomatch h)
  | .num _, .bool _ => .isFalse (fun h => nomatch h)
  | .num x, .num y =>
      if h : x = y then .isTrue (by rw [h])
      else .isFalse (by intro hh; injection hh; contradiction)
  | .num _, .str _ => .isFalse (fun h => nomatch h)
  | .num _, .arr _ => .isFalse (fun h => nomatch h)
  | .num _, .obj _ => .isFalse (fun h => nomatch h)
  | .str _, .null => .isFalse (fun h => nomatch h)
  | .str _, .bool _ => .isFalse (fun h => nomatch h)
  | .str _, .num _ => .isFalse (fun h => nomatch h)
  | .str x, .str y =>
      if h : x = y then .isTrue (by rw [h])
      else .isFalse (by intro hh; injection hh; contradiction)
  | .str _, .arr _ => .isFalse (fun h => nomatch h)
  | .str _, .obj _ => .isFalse (fun h => nomatch h)
  | .arr _, .null => .isFalse (fun h => nomatch h)
  | .arr _, .bool _ => .isFalse (fun h => nomatch h)
  | .arr _, .num _ => .isFalse (fun h => nomatch h)
  | .arr _, .str _ => .isFalse (fun h => nomatch h)
  | .arr xs, .arr ys =>
      match decEqJsonLista xs ys with
      | .isTrue h => .isTrue (by rw [h])
      | .isFalse h => .isFalse (by intro hh; injection hh; contradiction)
  | .arr _, .obj _ => .isFalse (fun h => nomatch h)
  | .obj _, .null => .isFalse (fun h => nomatch h)
  | .obj _, .bool _ => .isFalse (fun h => nomatch h)
  | .obj _, .num _ => .isFalse (fun h => nomatch h)
  | .obj _, .str _ => .isFalse (fun h => nomatch h)
  | .obj _, .arr _ => .isFalse (fun h => nomatch h)
  | .obj xs, .obj ys =>
      match decEqJsonPares xs ys with
      | .isTrue h => .isTrue (by rw [h])
      | .isFalse h => .isFalse (by intro hh; injection hh; contradiction)

/-- Decidable equality of lists of JSON values. -/
def decEqJsonLista : (xs ys : List Json) → Decidable (xs = ys)
  | [], [] => .isTrue rfl
  | [], _ :: _ => .isFalse (fun h => nomatch h)
  | _ :: _, [] => .isFalse (fun h => nomatch h)
  | x :: xs, y :: ys =>
      match decEqJson x y, decEqJsonLista xs ys with
      | .isTrue h1, .isTrue h2 => .isTrue (by rw [h1, h2])
      | .isFalse h1, _ => .isFalse (by intro hh; injection hh; contradiction)
      | _, .isFalse h2 => .isFalse (by intro hh; injection hh; contradiction)

/-- Decidable equality of lists of JSON object bindings. -/
def decEqJsonPares : (xs ys : List (String × Json)) → Decidable (xs = ys)
  | [], [] => .isTrue rfl
  | [], _ :: _ => .isFalse (fun h => nomatch h)
  | _ :: _, [] => .isFalse (fun h => nomatch h)
  | (k1, v1) :: xs, (k2, v2) :: ys =>
      match String.decEq k1 k2, decEqJson v1 v2, decEqJsonPares xs ys with
      | .isTrue hk, .isTrue hv, .isTrue ht => .isTrue (by rw [hk, hv, ht])
      | .isFalse hk, _, _ =>
          .isFalse (by intro hh; injection hh with hp ht; injection hp; contradiction)
      | _, .isFalse hv, _ =>
          .isFalse (by intro hh; injection hh with hp ht; injection hp; contradiction)
      | _, _, .isFalse ht =>
          .isFalse (by intro hh; injection hh with hp ht2; contradiction)

end

instance : DecidableEq Json := decEqJson

instance {ε α : Type} [DecidableEq ε] [DecidableEq α] : DecidableEq (Except ε α) :=
  fun x y =>
    match x, y with
    | .ok a, .ok b => decidable_of_iff (a = b) (by simp)
    | .error a, .error b => decidable_of_iff (a = b) (by simp)
    | .ok _, .error _ => .isFalse (by simp)
    | .error _, .ok _ => .isFalse (by simp)

/-- Python truthiness of an environment variable as read by `os.environ.get`:
`None` (unset) and the empty string are falsy. -/
def truthy : Option String → Bool
  | none => false
  | some s => !s.isEmpty

/-- Python truthiness of a decoded JSON value (`data or {}` at line 78 of the
source replaces a falsy value by the empty dict). -/
def jsonTruthy : Json → Bool
  | .null => false
  | .bool b => b
  | .num n => n != 0
  | .str s => !s.isEmpty
  | .arr xs => !xs.isEmpty
  | .obj kvs => !kvs.isEmpty

/-- The environment-variable configuration read at module import
(LOGS_BUCKET, SMTP_USER, SMTP_PASS, SMTP_TO). -/
structure Config where
  logsBucket : Option String
  smtpUser : Option String
  smtpPass : Option String
  smtpTo : Option String
deriving DecidableEq

/-- First binding of a key in a JSON object (Python dict keys are unique, and
all objects this model builds keep them unique). -/
def lookupKey : List (String × Json) → String → Option Json
  | [], _ => none
  | (k, v) :: rest, q => if k = q then some v else lookupKey rest q

/-- Python `x.get(k, d)`: the value bound to `k`, or the default `d` when the
key is absent; raises `AttributeError` when `x` is not a dict. -/
def dictGet : Json → String → Json → Except String Json
  | .obj kvs, k, d => .ok ((lookupKey kvs k).getD d)
  | _, _, _ => .error "AttributeError: object has no attribute get"

/-- Hexadecimal digit character, lowercase, for `n < 16`. -/
def hexDigit (n : Nat) : Char :=
  if n < 10 then Char.ofNat (48 + n) else Char.ofNat (87 + n)

/-- Two lowercase hex digits of `n % 256`. -/
def hex2 (n : Nat) : String :=
  String.mk [hexDigit (n / 16 % 16), hexDigit (n % 16)]

/-- Four lowercase hex digits of `n % 65536`. -/
def hex4 (n : Nat) : String :=
  String.mk [hexDigit (n / 4096 % 16), hexDigit (n / 256 % 16),
             hexDigit (n / 16 % 16), hexDigit (n % 16)]

/-- Escaping of one character inside a JSON string literal as done by
`json.dumps(..., ensure_ascii=False)`: backslash, double quote, the named
control escapes, `\u00XX` for the remaining control characters, and every
other character verbatim. -/
def jsonEscapeChar (c : Char) : String :=
  if c = '\\' then "\\\\"
  else if c = '"' then "\\\""
  else if c = '\n' then "\\n"
  else if c = '\t' then "\\t"
  else if c.toNat = 13 then "\\r"
  else if c.toNat = 8 then "\\b"
  else if c.toNat = 12 then "\\f"
  else if c.toNat < 32 then "\\u" ++ hex4 c.toNat
  else String.singleton c

/-- A JSON string literal as rendered by `json.dumps(..., ensure_ascii=False)`. -/
def jsonQuoteStr (s : String) : String :=
  "\"" ++ String.join (s.toList.map jsonEscapeChar) ++ "\""

mutual

/-- Serialization of a JSON value exactly as `json.dumps(v, ensure_ascii=False)`
renders it with the default separators. -/
def jsonDumps : Json → String
  | .null => "null"
  | .bool true => "true"
  | .bool false => "false"
  | .num n => toString n
  | .str s => jsonQuoteStr s
  | .arr xs => "[" ++ String.intercalate ", " (jsonDumpsLista xs) ++ "]"
  | .obj kvs => "\x7b" ++ String.intercalate ", " (jsonDumpsPares kvs) ++ "\x7d"

/-- Serialization of the elements of a JSON array, in order. -/
def jsonDumpsLista : List Json → List String
  | [] => []
  | v :: vs => jsonDumps v :: jsonDumpsLista vs

/-- Serialization of the bindings of a JSON object, in order. -/
def jsonDumpsPares : List (String × Json) → List String
  | [] => []
  | (k, v) :: kvs => (jsonQuoteStr k ++ ": " ++ jsonDumps v) :: jsonDumpsPares kvs

end

/-- Escaping of one character inside a Python `repr` string literal
(single-quoted form). -/
def pyReprEscape (c : Char) : String :=
  if c = '\\' then "\\\\"
  else if c.toNat = 39 then "\\" ++ String.singleton (Char.ofNat 39)
  else if c = '\n' then "\\n"
  else if c.toNat = 13 then "\\r"
  else if c = '\t' then "\\t"
  else if c.toNat < 32 then "\\x" ++ hex2 c.toNat
  else String.singleton c

/-- Python `repr` of a string in its single-quoted form (the form CPython uses
for every string without a single quote; no event field rendered through
`repr` by this service contains one). -/
def pyReprStr (s : String) : String :=
  String.singleton (Char.ofNat 39) ++ String.join (s.toList.map pyReprEscape)
    ++ String.singleton (Char.ofNat 39)

mutual

/-- Python `repr` of a decoded JSON value (a Python `None`, `bool`, `int`,
`str`, `list` or `dict`). -/
def pyRepr : Json → String
  | .null => "None"
  | .bool true => "True"
  | .bool false => "False"
  | .num n => toString n
  | .str s => pyReprStr s
  | .arr xs => "[" ++ String.intercalate ", " (pyReprLista xs) ++ "]"
  | .obj kvs => "\x7b" ++ String.intercalate ", " (pyReprPares kvs) ++ "\x7d"

/-- Python `repr` of the elements of a list, in order. -/
def pyReprLista : List Json → List String
  | [] => []
  | v :: vs => pyRepr v :: pyReprLista vs

/-- Python `repr` of the bindings of a dict, in order. -/
def pyReprPares : List (String × Json) → List String
  | [] => []
  | (k, v) :: kvs => (pyReprStr k ++ ": " ++ pyRepr v) :: pyReprPares kvs

end

/-- Stringification a `csv.writer` applies to a field: `None` becomes the empty
string, a `str` is written as is, every other value goes through `str()`
(which on a `list` or `dict` is `repr`). -/
def csvStr : Json → String
  | .null => ""
  | .bool true => "True"
  | .bool false => "False"
  | .num n => toString n
  | .str s => s
  | .arr xs => pyRepr (.arr xs)
  | .obj kvs => pyRepr (.obj kvs)

/-- QUOTE_MINIMAL test of `csv.writer` with delimiter `;`: a field is quoted
iff it contains the delimiter, the quote char or a line break. -/
def csvNeedsQuote (s : String) : Bool :=
  s.toList.any (fun c => c = ';' || c = '"' || c = '\n' || c.toNat = 13)

/-- Quoting of one CSV field: embedded double quotes are doubled and the field
is wrapped in double quotes when `csvNeedsQuote` holds, else it is verbatim. -/
def csvQuote (s : String) : String :=
  if csvNeedsQuote s then
    "\"" ++ String.join (s.toList.map (fun c => if c = '"' then "\"\"" else String.singleton c)) ++ "\""
  else s

/-- One `writer.writerow(fields)` with delimiter `;`: quoted fields joined by
the delimiter, terminated by the default CRLF line terminator. -/
def csvRow (fields : List String) : String :=
  String.intercalate ";" (fields.map csvQuote) ++ "\x0d\n"

/-- The header row written at line 151 of the source. -/
def cabeceraCsv : String :=
  csvRow ["fecha", "tipo", "ip", "detalle", "user_agent"]

/-- The five CSV fields of one event, in source order (lines 153-160):
`fecha`, `tipo`, `ip`, `detalle` serialized through `json.dumps`, and
`user_agent`; raises when the event is not a dict. -/
def camposCsv (ev : Json) : Except String (List String) :=
  match dictGet ev "fecha" (.str "") with
  | .error e => .error e
  | .ok fecha =>
  match dictGet ev "tipo" (.str "") with
  | .error e => .error e
  | .ok tipo =>
  match dictGet ev "ip" (.str "") with
  | .error e => .error e
  | .ok ip =>
  match dictGet ev "detalle" (.obj []) with
  | .error e => .error e
  | .ok detalle =>
  match dictGet ev "user_agent" (.str "") with
  | .error e => .error e
  | .ok ua => .ok [csvStr fecha, csvStr tipo, csvStr ip, jsonDumps detalle, csvStr ua]

/-- The data rows of the CSV, one `writerow` per event in listing order. -/
def filasCsv : List Json → Except String (List String)
  | [] => .ok []
  | ev :: rest =>
      match camposCsv ev with
      | .error e => .error e
      | .ok campos =>
          match filasCsv rest with
          | .error e => .error e
          | .ok filas => .ok (csvRow campos :: filas)

/-- One step of `por_tipo[t] = por_tipo.get(t, 0) + 1` on an insertion-ordered
dict: the first binding of `t` is incremented in place, a missing key is
appended at the end with count 1. -/
def bump : List (Json × Nat) → Json → List (Json × Nat)
  | [], t => [(t, 1)]
  | (k, n) :: rest, t =>
      if k = t then (k, n + 1) :: rest else (k, n) :: bump rest t

/-- The tally loop at lines 144-146 of the source:
`t = ev.get("tipo", "desconocido"); por_tipo[t] = por_tipo.get(t, 0) + 1`
over the events in order; raises when some event is not a dict. -/
def tallyTipos : List Json → List (Json × Nat) → Except String (List (Json × Nat))
  | [], acc => .ok acc
  | ev :: rest, acc =>
      match dictGet ev "tipo" (.str "desconocido") with
      | .error e => .error e
      | .ok t => tallyTipos rest (bump acc t)

/-- The summary dict built by `_construir_resumen_y_csv`. -/
structure Resumen where
  fecha : String
  total_eventos : Nat
  por_tipo : List (Json × Nat)
deriving DecidableEq

/-- `_construir_resumen_y_csv(eventos, fecha_str)`: total, per-type tally, and
the CSV text (header row followed by one row per event). -/
def construir_resumen_y_csv (eventos : List Json) (fechaStr : String) :
    Except String (Resumen × String) :=
  match tallyTipos eventos [] with
  | .error e => .error e
  | .ok porTipo =>
      match filasCsv eventos with
      | .error e => .error e
      | .ok filas =>
          .ok (⟨fechaStr, eventos.length, porTipo⟩, cabeceraCsv ++ String.join filas)

/-- `_leer_eventos_fecha`: `_get_bucket()` raises when LOGS_BUCKET is falsy;
otherwise every listed blob whose download-and-parse succeeded is appended in
listing order and every failing one is skipped by the `try/except: continue`. -/
def leer_eventos_fecha (cfg : Config) (blobs : List (Option Json)) :
    Except String (List Json) :=
  if truthy cfg.logsBucket then .ok (blobs.filterMap id)
  else .error "LOGS_BUCKET no esta configurado"

/-- The email composed by `_enviar_correo_resumen` when configuration is
present. -/
structure EmailMsg where
  subject : String
  remitente : String
  destinatario : String
  cuerpo : String
  nombreAdjunto : String
  adjunto : String
deriving DecidableEq

/-- The plain-text body of the summary email (lines 180-190 of the source):
total count and one breakdown line per `por_tipo` key in insertion order. -/
def cuerpoCorreo (resumen : Resumen) (fechaStr : String) : String :=
  String.intercalate "\n"
    (["Resumen de eventos GeoIPT para el día " ++ fechaStr,
      "",
      "Total de eventos: " ++ toString resumen.total_eventos,
      "",
      "Detalle por tipo:"]
     ++ resumen.por_tipo.map (fun p => "- " ++ csvStr p.1 ++ ": " ++ toString p.2)
     ++ ["",
      "Se adjunta archivo CSV con el detalle de los eventos."])

/-- `_enviar_correo_resumen(resumen, csv_text, fecha_str)`: when SMTP_USER,
SMTP_PASS and SMTP_TO are not all truthy it returns immediately (`ok none`,
a no-op); otherwise it composes the message and performs the SMTP
login-and-send, whose outcome is the `envioSmtp` parameter. -/
def enviar_correo_resumen (cfg : Config) (resumen : Resumen) (csvText : String)
    (fechaStr : String) (envioSmtp : Except String Unit) :
    Except String (Option EmailMsg) :=
  if truthy cfg.smtpUser && truthy cfg.smtpPass && truthy cfg.smtpTo then
    match envioSmtp with
    | .ok _ => .ok (some
        { subject := "GeoIPT – Resumen eventos " ++ fechaStr
          remitente := cfg.smtpUser.getD ""
          destinatario := cfg.smtpTo.getD ""
          cuerpo := cuerpoCorreo resumen fechaStr
          nombreAdjunto := "geoipt_eventos_" ++ fechaStr ++ ".csv"
          adjunto := csvText })
    | .error e => .error e
  else
    .ok none

/-- The JSON body of the aggregation endpoint response together with its HTTP
status. -/
structure Respuesta where
  status : Nat
  fecha : String
  total_eventos : Nat
  por_tipo : List (Json × Nat)
  email_enviado : Bool
  email_error : Option String
deriving DecidableEq

/-- `request.args.get("fecha") or _today_str()`: the query parameter unless it
is absent or empty, else the current UTC date. -/
def fechaEfectiva (fechaParam : Option String) (hoy : String) : String :=
  match fechaParam with
  | some f => if f.isEmpty then hoy else f
  | none => hoy

/-- The `/api/resumen_diario` handler: read the events of the date, build the
summary and CSV, try to send the mail; a non-raising send sets
`email_enviado = True`, a raising one sets `email_enviado = False` and
`email_error = str(e)`; either way the summary is returned with status 200.
An exception outside the `try` (missing bucket, non-dict event) propagates. -/
def resumen_diario (cfg : Config) (fechaParam : Option String) (hoy : String)
    (blobs : List (Option Json)) (envioSmtp : Except String Unit) :
    Except String Respuesta :=
  let fechaStr := fechaEfectiva fechaParam hoy
  match leer_eventos_fecha cfg blobs with
  | .error e => .error e
  | .ok eventos =>
      match construir_resumen_y_csv eventos fechaStr with
      | .error e => .error e
      | .ok (resumen, csvText) =>
          match enviar_correo_resumen cfg resumen csvText fechaStr envioSmtp with
          | .ok _ =>
              .ok ⟨200, resumen.fecha, resumen.total_eventos, resumen.por_tipo, true, none⟩
          | .error e =>
              .ok ⟨200, resumen.fecha, resumen.total_eventos, resumen.por_tipo, false, some e⟩

/-- A UTC instant as used by the source through `datetime.now(timezone.utc)`. -/
structure FechaHora where
  year : Nat
  month : Nat
  day : Nat
  hour : Nat
  minute : Nat
  second : Nat
  micro : Nat
deriving DecidableEq

/-- Zero-padded fixed-width decimal rendering of `n`, as `strftime` and
`isoformat` render every datetime field: exactly `w` digit characters, most
significant first. Every `datetime` field fits its width (year at most 9999,
the rest two or six digits), so the `% 10^w` truncation outside that domain is
never exercised. -/
def pad : Nat → Nat → String
  | 0, _ => ""
  | w + 1, n => pad w (n / 10) ++ String.singleton (Char.ofNat (48 + n % 10))

/-- `_today_str()`: `strftime("%Y-%m-%d")` of the current UTC instant. -/
def today_str (t : FechaHora) : String :=
  pad 4 t.year ++ "-" ++ pad 2 t.month ++ "-" ++ pad 2 t.day

/-- `now.strftime("%Y%m%dT%H%M%S")` (line 100 of the source). -/
def tsCompacto (t : FechaHora) : String :=
  pad 4 t.year ++ pad 2 t.month ++ pad 2 t.day ++ "T"
    ++ pad 2 t.hour ++ pad 2 t.minute ++ pad 2 t.second

/-- `now.isoformat()` for a UTC-aware instant: microseconds are printed only
when nonzero, the offset is always `+00:00`. -/
def isoFormato (t : FechaHora) : String :=
  pad 4 t.year ++ "-" ++ pad 2 t.month ++ "-" ++ pad 2 t.day ++ "T"
    ++ pad 2 t.hour ++ ":" ++ pad 2 t.minute ++ ":" ++ pad 2 t.second
    ++ (if t.micro = 0 then "" else "." ++ pad 6 t.micro) ++ "+00:00"

/-- The blob written by the ingestion endpoint: its object key and its
serialized content. -/
structure BlobEscrito where
  nombre : String
  contenido : String
deriving DecidableEq

/-- The `/api/log_evento` handler body (POST path, inside the `try`):
`datos` is the outcome of `request.get_json(force=True, silent=True)` (`none`
when the body is not valid JSON), replaced by `\x7b\x7d` when falsy; `ahora` is
the `now` of line 82, `ahoraCarpeta` the `now` taken inside `_today_str()` at
line 99, `sufijo` is `uuid4().hex[:6]`, and `ip` and `userAgent` come from the
request headers. Returns the written blob and the event dict, or the raised
exception. `datosEfectivos` is the `data = request.get_json(...) or \x7b\x7d`
step at line 78: a falsy decoded body is replaced by the empty dict. -/
def datosEfectivos (datos : Option Json) : Json :=
  match datos with
  | none => Json.obj []
  | some v => if jsonTruthy v then v else Json.obj []

/-- The event dict assembled at lines 89-95 of the source. -/
def eventoDe (tipo detalle : Json) (ahora : FechaHora) (ip userAgent : String) : Json :=
  .obj [("tipo", tipo), ("detalle", detalle), ("fecha", .str (isoFormato ahora)),
        ("ip", .str ip), ("user_agent", .str userAgent)]

/-- The blob key assembled at lines 99-102 of the source. -/
def nombreBlob (ahora ahoraCarpeta : FechaHora) (sufijo : String) : String :=
  "events/" ++ today_str ahoraCarpeta ++ "/" ++ tsCompacto ahora ++ "_" ++ sufijo ++ ".json"

def log_evento (cfg : Config) (datos : Option Json) (ahora ahoraCarpeta : FechaHora)
    (sufijo : String) (ip userAgent : String) :
    Except String (BlobEscrito × Json) :=
  match dictGet (datosEfectivos datos) "tipo" (.str "desconocido") with
  | .error e => .error e
  | .ok tipo =>
  match dictGet (datosEfectivos datos) "detalle" (.obj []) with
  | .error e => .error e
  | .ok detalle =>
      if truthy cfg.logsBucket then
        .ok (⟨nombreBlob ahora ahoraCarpeta sufijo,
              jsonDumps (eventoDe tipo detalle ahora ip userAgent)⟩,
             eventoDe tipo detalle ahora ip userAgent)
      else
        .error "LOGS_BUCKET no esta configurado"

/-- Lowercase hexadecimal character, the alphabet of `uuid4().hex`. -/
def esHexMinuscula (c : Char) : Bool :=
  c.isDigit || (97 ≤ c.toNat && c.toNat ≤ 102)

/-- A six-character lowercase-hex string, the shape of `uuid4().hex[:6]`. -/
def esSufijoHex6 (s : String) : Bool :=
  s.length = 6 && s.toList.all esHexMinuscula

/-- Consume exactly `n` leading characters satisfying `p`, returning the rest. -/
def tomarSat (p : Char → Bool) : Nat → List Char → Option (List Char)
  | 0, cs => some cs
  | n + 1, c :: cs => if p c then tomarSat p n cs else none
  | _ + 1, [] => none

/-- Consume a literal character sequence, returning the rest. -/
def tomarLit : List Char → List Char → Option (List Char)
  | [], cs => some cs
  | l :: ls, c :: cs => if c = l then tomarLit ls cs else none
  | _ :: _, [] => none

/-- Modelled from the spec: the persisted-object key scheme exactly as section
6 of the spec states it, `events/<YYYY-MM-DD>/<YYYYMMDDTHHMMSS>_<6-hex-char-suffix>`
with nothing after the suffix. -/
def esquemaClaveSpec (k : String) : Bool :=
  (some k.toList >>= tomarLit "events/".toList
    >>= tomarSat Char.isDigit 4 >>= tomarLit ['-']
    >>= tomarSat Char.isDigit 2 >>= tomarLit ['-']
    >>= tomarSat Char.isDigit 2 >>= tomarLit ['/']
    >>= tomarSat Char.isDigit 8 >>= tomarLit ['T']
    >>= tomarSat Char.isDigit 6 >>= tomarLit ['_']
    >>= tomarSat esHexMinuscula 6) = some []

/-- The key scheme the code actually produces: the scheme of the spec followed
by a `.json` extension. -/
def esquemaClaveJson (k : String) : Bool :=
  (some k.toList >>= tomarLit "events/".toList
    >>= tomarSat Char.isDigit 4 >>= tomarLit ['-']
    >>= tomarSat Char.isDigit 2 >>= tomarLit ['-']
    >>= tomarSat Char.isDigit 2 >>= tomarLit ['/']
    >>= tomarSat Char.isDigit 8 >>= tomarLit ['T']
    >>= tomarSat Char.isDigit 6 >>= tomarLit ['_']
    >>= tomarSat esHexMinuscula 6 >>= tomarLit ".json".toList) = some []

/-- Count bound to the key `t` in an insertion-ordered tally (0 when absent),
reading the first binding like a Python dict access. -/
def cuenta : List (Json × Nat) → Json → Nat
  | [], _ => 0
  | (k, n) :: rest, t => if k = t then n else cuenta rest t

/-- Sum of all per-type counts of a tally. -/
def sumaCuentas (m : List (Json × Nat)) : Nat :=
  (m.map Prod.snd).sum

/-- Keys of a tally, in insertion order. -/
def claves (m : List (Json × Nat)) : List Json :=
  m.map Prod.fst

/-- Whether the tally loop files event `ev` under key `t`: `ev` is a dict and
`ev.get("tipo", "desconocido")` returns `t`. -/
def esTipo (t ev : Json) : Bool :=
  decide (dictGet ev "tipo" (.str "desconocido") = .ok t)

theorem cuenta_bump_self (m : List (Json × Nat)) (t : Json) :
    cuenta (bump m t) t = cuenta m t + 1 := by
  induction m with
  | nil => simp [bump, cuenta]
  | cons p rest ih =>
      obtain ⟨k, n⟩ := p
      by_cases h : k = t
      · subst h; simp [bump, cuenta]
      · simp [bump, cuenta, h, ih]

theorem cuenta_bump_ne (m : List (Json × Nat)) {t t' : Json} (h : t' ≠ t) :
    cuenta (bump m t) t' = cuenta m t' := by
  induction m with
  | nil =>
      simp only [bump, cuenta]
      rw [if_neg (fun hh => h hh.symm)]
  | cons p rest ih =>
      obtain ⟨k, n⟩ := p
      by_cases hk : k = t
      · subst hk
        simp only [bump, if_pos rfl, cuenta]
        rw [if_neg (fun hh => h hh.symm), if_neg (fun hh => h hh.symm)]
      · simp only [bump, if_neg hk, cuenta, ih]

theorem suma_bump (m : List (Json × Nat)) (t : Json) :
    sumaCuentas (bump m t) = sumaCuentas m + 1 := by
  induction m with
  | nil => simp [bump, sumaCuentas]
  | cons p rest ih =>
      obtain ⟨k, n⟩ := p
      by_cases h : k = t
      · subst h; simp [bump, sumaCuentas]; omega
      · simp [bump, sumaCuentas, h] at ih ⊢; omega

theorem claves_bump (m : List (Json × Nat)) (t : Json) :
    claves (bump m t) = claves m ∨
      (t ∉ claves m ∧ claves (bump m t) = claves m ++ [t]) := by
  induction m with
  | nil =>
      right
      constructor
      · simp [claves]
      · simp [bump, claves]
  | cons p rest ih =>
      obtain ⟨k, n⟩ := p
      by_cases hk : k = t
      · left
        subst hk
        simp [bump, claves]
      · rcases ih with h | ⟨hnot, h⟩
        · left
          simp only [bump, if_neg hk, claves, List.map_cons]
          simp only [claves] at h
          rw [h]
        · right
          constructor
          · simp only [claves, List.map_cons, List.mem_cons]
            push_neg
            exact ⟨fun hh => hk hh.symm, by simpa [claves] using hnot⟩
          · simp only [bump, if_neg hk, claves, List.map_cons]
            simp only [claves] at h
            rw [h]
            simp

theorem nodup_claves_bump {m : List (Json × Nat)} (t : Json)
    (h : (claves m).Nodup) : (claves (bump m t)).Nodup := by
  rcases claves_bump m t with h2 | ⟨hnot, h2⟩
  · rw [h2]; exact h
  · rw [h2]
    simp [List.nodup_append, h, hnot]

theorem cuenta_eq_of_mem {m : List (Json × Nat)} (hnd : (claves m).Nodup)
    {k : Json} {n : Nat} (hm : (k, n) ∈ m) : cuenta m k = n := by
  induction m with
  | nil => simp at hm
  | cons p rest ih =>
      obtain ⟨k', n'⟩ := p
      simp only [claves, List.map_cons] at hnd
      have hnd1 := List.nodup_cons.mp hnd
      rcases List.mem_cons.mp hm with h | h
      · injection h with h1 h2
        subst h1; subst h2
        simp [cuenta]
      · have hk : ¬ (k' = k) := by
          intro he; subst he
          exact hnd1.1 (by simpa [claves] using List.mem_map_of_mem Prod.fst h)
        rw [cuenta, if_neg hk]
        exact ih (by simpa [claves] using hnd1.2) h

theorem tallyTipos_spec (evs : List Json) :
    ∀ acc m, tallyTipos evs acc = .ok m →
      (∀ t, cuenta m t = cuenta acc t + (evs.filter (esTipo t)).length) ∧
      sumaCuentas m = sumaCuentas acc + evs.length ∧
      ((claves acc).Nodup → (claves m).Nodup) := by
  induction evs with
  | nil =>
      intro acc m h
      simp [tallyTipos] at h
      subst h
      simp
  | cons ev rest ih =>
      intro acc m h
      simp only [tallyTipos] at h
      cases hget : dictGet ev "tipo" (.str "desconocido") with
      | error e => rw [hget] at h; simp at h
      | ok t =>
          rw [hget] at h
          obtain ⟨h1, h2, h3⟩ := ih (bump acc t) m h
          refine ⟨?_, ?_, ?_⟩
          · intro k
            by_cases hk : t = k
            · subst hk
              have hfil : (ev :: rest).filter (esTipo t) = ev :: rest.filter (esTipo t) := by
                simp [List.filter_cons, esTipo, hget]
              rw [h1 t, cuenta_bump_self, hfil]
              simp; omega
            · have hfil : (ev :: rest).filter (esTipo k) = rest.filter (esTipo k) := by
                simp [List.filter_cons, esTipo, hget, hk]
              rw [h1 k, cuenta_bump_ne _ (fun hh => hk hh.symm), hfil]
          · rw [h2, suma_bump]
            simp; omega
          · intro hnd
            exact h3 (nodup_claves_bump t hnd)

theorem camposCsv_obj (kvs : List (String × Json)) :
    camposCsv (.obj kvs) = .ok
      [csvStr ((lookupKey kvs "fecha").getD (.str "")),
       csvStr ((lookupKey kvs "tipo").getD (.str "")),
       csvStr ((lookupKey kvs "ip").getD (.str "")),
       jsonDumps ((lookupKey kvs "detalle").getD (.obj [])),
       csvStr ((lookupKey kvs "user_agent").getD (.str ""))] := by
  simp [camposCsv, dictGet]

theorem camposCsv_ok_obj {ev : Json} {campos : List String}
    (h : camposCsv ev = .ok campos) : ∃ kvs, ev = .obj kvs := by
  cases ev <;> simp [camposCsv, dictGet] at h
  exact ⟨_, rfl⟩

theorem filasCsv_spec (eventos : List Json) :
    ∀ filas, filasCsv eventos = .ok filas →
      filas.length = eventos.length ∧
      ∀ i, i < eventos.length →
        ∃ campos, camposCsv (eventos.getD i .null) = .ok campos ∧
          filas.getD i "" = csvRow campos := by
  induction eventos with
  | nil =>
      intro filas h
      simp [filasCsv] at h
      subst h
      simp
  | cons ev rest ih =>
      intro filas h
      simp only [filasCsv] at h
      cases hc : camposCsv ev with
      | error e => rw [hc] at h; simp at h
      | ok campos =>
          rw [hc] at h
          cases hf : filasCsv rest with
          | error e => rw [hf] at h; simp at h
          | ok frest =>
              rw [hf] at h
              simp at h
              subst h
              obtain ⟨hlen, hidx⟩ := ih frest hf
              refine ⟨by simp [hlen], ?_⟩
              intro i hi
              cases i with
              | zero => exact ⟨campos, by simpa using hc, by simp⟩
              | succ j =>
                  have hj : j < rest.length := by simpa using hi
                  obtain ⟨c, hc2, hr2⟩ := hidx j hj
                  exact ⟨c, by simpa using hc2, by simpa using hr2⟩

theorem construir_ok_inv {eventos : List Json} {fechaStr : String}
    {r : Resumen} {csvt : String}
    (h : construir_resumen_y_csv eventos fechaStr = .ok (r, csvt)) :
    ∃ porTipo filas, tallyTipos eventos [] = .ok porTipo ∧
      filasCsv eventos = .ok filas ∧
      r = ⟨fechaStr, eventos.length, porTipo⟩ ∧
      csvt = cabeceraCsv ++ String.join filas := by
  unfold construir_resumen_y_csv at h
  cases ht : tallyTipos eventos [] with
  | error e => rw [ht] at h; simp at h
  | ok porTipo =>
      rw [ht] at h
      cases hf : filasCsv eventos with
      | error e => rw [hf] at h; simp at h
      | ok filas =>
          rw [hf] at h
          simp at h
          exact ⟨porTipo, filas, rfl, rfl, h.1.symm, h.2.symm⟩

/-- The response dict as augmented at lines 226-231 of the source: a non-raising
notification step sets `email_enviado = True`, a raising one sets
`email_enviado = False` and `email_error = str(e)`; the status is 200 either
way. -/
def respuestaCorreo (resumen : Resumen) (resultado : Except String (Option EmailMsg)) : Respuesta :=
  match resultado with
  | .ok _ => ⟨200, resumen.fecha, resumen.total_eventos, resumen.por_tipo, true, none⟩
  | .error e => ⟨200, resumen.fecha, resumen.total_eventos, resumen.por_tipo, false, some e⟩

theorem resumen_diario_ok_inv {cfg : Config} {p : Option String} {hoy : String}
    {blobs : List (Option Json)} {envio : Except String Unit} {r : Respuesta}
    (h : resumen_diario cfg p hoy blobs envio = .ok r) :
    ∃ eventos resumen csvt,
      leer_eventos_fecha cfg blobs = .ok eventos ∧
      construir_resumen_y_csv eventos (fechaEfectiva p hoy) = .ok (resumen, csvt) ∧
      r = respuestaCorreo resumen
        (enviar_correo_resumen cfg resumen csvt (fechaEfectiva p hoy) envio) := by
  unfold resumen_diario at h
  cases hleer : leer_eventos_fecha cfg blobs with
  | error e => simp only [hleer] at h; exact Except.noConfusion h
  | ok eventos =>
      simp only [hleer] at h
      cases hcons : construir_resumen_y_csv eventos (fechaEfectiva p hoy) with
      | error e => simp only [hcons] at h; exact Except.noConfusion h
      | ok pr =>
          obtain ⟨resumen, csvt⟩ := pr
          simp only [hcons] at h
          refine ⟨eventos, resumen, csvt, rfl, hcons, ?_⟩
          cases henv : enviar_correo_resumen cfg resumen csvt (fechaEfectiva p hoy) envio with
          | ok m =>
              simp only [henv, respuestaCorreo, Except.ok.injEq] at h ⊢
              exact h.symm
          | error e =>
              simp only [henv, respuestaCorreo, Except.ok.injEq] at h ⊢
              exact h.symm

theorem resumen_diario_eq {cfg : Config} {p : Option String} {hoy : String}
    {blobs : List (Option Json)} {eventos : List Json} {resumen : Resumen}
    {csvt : String} (envio : Except String Unit)
    (hleer : leer_eventos_fecha cfg blobs = .ok eventos)
    (hcons : construir_resumen_y_csv eventos (fechaEfectiva p hoy) = .ok (resumen, csvt)) :
    resumen_diario cfg p hoy blobs envio =
      .ok (respuestaCorreo resumen
        (enviar_correo_resumen cfg resumen csvt (fechaEfectiva p hoy) envio)) := by
  unfold resumen_diario
  simp only [hleer, hcons]
  cases henv : enviar_correo_resumen cfg resumen csvt (fechaEfectiva p hoy) envio with
  | ok m => simp [respuestaCorreo, henv]
  | error e => simp [respuestaCorreo, henv]

/-- C4: a stored object whose content fails to parse is skipped by the reader:
inserting an unreadable blob anywhere in the listing changes neither the list
of parsed events (so neither the total count, the per-type counts nor any CSV
row) nor the final aggregation response, and in particular it does not abort
processing of the remaining objects. -/
theorem objeto_ilegible_se_salta (cfg : Config) (fechaParam : Option String)
    (hoy : String) (antes despues : List (Option Json)) (envioSmtp : Except String Unit) :
    leer_eventos_fecha cfg (antes ++ none :: despues) =
      leer_eventos_fecha cfg (antes ++ despues) ∧
    resumen_diario cfg fechaParam hoy (antes ++ none :: despues) envioSmtp =
      resumen_diario cfg fechaParam hoy (antes ++ despues) envioSmtp := by
  have hfil : (antes ++ none :: despues).filterMap (id : Option Json → Option Json) =
      (antes ++ despues).filterMap id := by
    simp
  have hleer : leer_eventos_fecha cfg (antes ++ none :: despues) =
      leer_eventos_fecha cfg (antes ++ despues) := by
    unfold leer_eventos_fecha
    rw [hfil]
  refine ⟨hleer, ?_⟩
  unfold resumen_diario
  rw [hleer]

/-- C6: aggregating a date for which no stored object is readable yields a
summary with total 0 and an empty per-type mapping, and a CSV text consisting
of only the header row. -/
theorem fecha_sin_eventos (cfg : Config) (fechaStr : String) (blobs : List (Option Json))
    (hb : truthy cfg.logsBucket = true) (hnone : ∀ b ∈ blobs, b = none) :
    leer_eventos_fecha cfg blobs = .ok [] ∧
    construir_resumen_y_csv [] fechaStr =
      .ok (⟨fechaStr, 0, []⟩, "fecha;tipo;ip;detalle;user_agent\x0d\n") := by
  constructor
  · unfold leer_eventos_fecha
    rw [hb]
    simp [List.filterMap_eq_nil_iff]
    exact hnone
  · rfl

/-- Witness for C6 at a concrete bucket configuration and two unreadable
blobs. -/
theorem fecha_sin_eventos_witness :
    leer_eventos_fecha ⟨some "geoipt-logs", none, none, none⟩ [none, none] = .ok [] ∧
    construir_resumen_y_csv [] "2026-10-12" =
      .ok (⟨"2026-10-12", 0, []⟩, "fecha;tipo;ip;detalle;user_agent\x0d\n") :=
  fecha_sin_eventos ⟨some "geoipt-logs", none, none, none⟩ "2026-10-12" [none, none]
    (by decide) (by decide)

/-- C9: a stored object whose content is well-formed JSON but not a JSON
object (here the JSON array `[]`) passes the per-object skip guard and is
appended to the event list; the summary construction then fails on the
attribute access `ev.get` and the whole aggregation of the date aborts with
that error instead of skipping only the offending object. -/
theorem objeto_no_dict_aborta :
    leer_eventos_fecha ⟨some "geoipt-logs", none, none, none⟩ [some (.arr [])] =
      .ok [Json.arr []] ∧
    construir_resumen_y_csv [Json.arr []] "2026-10-12" =
      .error "AttributeError: object has no attribute get" ∧
    resumen_diario ⟨some "geoipt-logs", none, none, none⟩ none "2026-10-12"
      [some (.arr [])] (.ok ()) =
      .error "AttributeError: object has no attribute get" :=
  ⟨by decide, by decide, by decide⟩

/-- C3: for every date whose summary construction succeeds, the count bound to
any key of the counts-by-type mapping equals the number of successfully parsed
stored event objects of that date filed under that key (the type field with the
`desconocido` default), the total equals the sum of all per-type counts, and
the total equals the number of successfully parsed event objects. -/
theorem invariante_resumen (cfg : Config) (blobs : List (Option Json))
    (eventos : List Json) (fechaStr : String) (r : Resumen) (csvt : String)
    (hleer : leer_eventos_fecha cfg blobs = .ok eventos)
    (hcons : construir_resumen_y_csv eventos fechaStr = .ok (r, csvt)) :
    (∀ t n, (t, n) ∈ r.por_tipo → n = (eventos.filter (esTipo t)).length) ∧
    (∀ t, cuenta r.por_tipo t = (eventos.filter (esTipo t)).length) ∧
    r.total_eventos = sumaCuentas r.por_tipo ∧
    r.total_eventos = eventos.length ∧
    eventos = blobs.filterMap id := by
  obtain ⟨porTipo, filas, ht, hf, hr, hcsv⟩ := construir_ok_inv hcons
  obtain ⟨h1, h2, h3⟩ := tallyTipos_spec eventos [] porTipo ht
  subst hr
  have hnd : (claves porTipo).Nodup := h3 (by simp [claves])
  refine ⟨?_, ?_, ?_, rfl, ?_⟩
  · intro t n hm
    have hc := cuenta_eq_of_mem hnd hm
    rw [← hc, h1 t]
    simp [cuenta]
  · intro t
    rw [h1 t]
    simp [cuenta]
  · have h4 : sumaCuentas porTipo = sumaCuentas [] + eventos.length := h2
    simp [sumaCuentas] at h4
    show eventos.length = sumaCuentas porTipo
    unfold sumaCuentas
    exact h4.symm
  · unfold leer_eventos_fecha at hleer
    by_cases hb : truthy cfg.logsBucket
    · rw [if_pos hb] at hleer
      injection hleer with h
      exact h.symm
    · rw [if_neg hb] at hleer
      exact Except.noConfusion hleer

/-- Witness for C3 at a concrete listing of one readable `click` event. -/
theorem invariante_resumen_witness :
    (∀ t n, (t, n) ∈ (Resumen.mk "2026-10-12" 1 [(Json.str "click", 1)]).por_tipo →
      n = ([Json.obj [("tipo", Json.str "click")]].filter (esTipo t)).length) ∧
    (∀ t, cuenta (Resumen.mk "2026-10-12" 1 [(Json.str "click", 1)]).por_tipo t =
      ([Json.obj [("tipo", Json.str "click")]].filter (esTipo t)).length) ∧
    (Resumen.mk "2026-10-12" 1 [(Json.str "click", 1)]).total_eventos =
      sumaCuentas (Resumen.mk "2026-10-12" 1 [(Json.str "click", 1)]).por_tipo ∧
    (Resumen.mk "2026-10-12" 1 [(Json.str "click", 1)]).total_eventos =
      [Json.obj [("tipo", Json.str "click")]].length ∧
    [Json.obj [("tipo", Json.str "click")]] =
      [some (Json.obj [("tipo", Json.str "click")])].filterMap id :=
  invariante_resumen ⟨some "geoipt-logs", none, none, none⟩
    [some (Json.obj [("tipo", Json.str "click")])]
    [Json.obj [("tipo", Json.str "click")]] "2026-10-12"
    ⟨"2026-10-12", 1, [(Json.str "click", 1)]⟩
    ("fecha;tipo;ip;detalle;user_agent\x0d\n;click;;\x7b\x7d;\x0d\n")
    (by decide) (by decide)

/-- C7: whenever summary construction succeeds, the rendered CSV text is the
header row followed by exactly one data row per event, in listing order; row
`i` is the five fields of event `i` — timestamp (`fecha`), type (`tipo`),
source IP (`ip`), detail serialized as JSON (`detalle`), user agent
(`user_agent`) in that column order — quoted minimally and joined by the `;`
delimiter. -/
theorem csv_formato (eventos : List Json) (fechaStr : String) (r : Resumen)
    (csvt : String)
    (h : construir_resumen_y_csv eventos fechaStr = .ok (r, csvt)) :
    ∃ filas, filasCsv eventos = .ok filas ∧
      filas.length = eventos.length ∧
      csvt = csvRow ["fecha", "tipo", "ip", "detalle", "user_agent"] ++ String.join filas ∧
      ∀ i, i < eventos.length → ∃ kvs campos,
        eventos.getD i .null = .obj kvs ∧
        camposCsv (eventos.getD i .null) = .ok campos ∧
        campos = [csvStr ((lookupKey kvs "fecha").getD (.str "")),
                  csvStr ((lookupKey kvs "tipo").getD (.str "")),
                  csvStr ((lookupKey kvs "ip").getD (.str "")),
                  jsonDumps ((lookupKey kvs "detalle").getD (.obj [])),
                  csvStr ((lookupKey kvs "user_agent").getD (.str ""))] ∧
        filas.getD i "" = String.intercalate ";" (campos.map csvQuote) ++ "\x0d\n" := by
  obtain ⟨porTipo, filas, ht, hf, hr, hcsv⟩ := construir_ok_inv h
  obtain ⟨hlen, hidx⟩ := filasCsv_spec eventos filas hf
  refine ⟨filas, hf, hlen, hcsv, ?_⟩
  intro i hi
  obtain ⟨campos, hc, hrow⟩ := hidx i hi
  obtain ⟨kvs, hkvs⟩ := camposCsv_ok_obj hc
  refine ⟨kvs, campos, hkvs, hc, ?_, hrow⟩
  rw [hkvs, camposCsv_obj] at hc
  injection hc with h2
  exact h2.symm

/-- Witness for C7 at a concrete one-event listing (the empty dict event). -/
theorem csv_formato_witness :
    ∃ filas, filasCsv [Json.obj []] = .ok filas ∧
      filas.length = [Json.obj []].length ∧
      ("fecha;tipo;ip;detalle;user_agent\x0d\n;;;\x7b\x7d;\x0d\n" : String) =
        csvRow ["fecha", "tipo", "ip", "detalle", "user_agent"] ++ String.join filas ∧
      ∀ i, i < [Json.obj []].length → ∃ kvs campos,
        [Json.obj []].getD i .null = .obj kvs ∧
        camposCsv ([Json.obj []].getD i .null) = .ok campos ∧
        campos = [csvStr ((lookupKey kvs "fecha").getD (.str "")),
                  csvStr ((lookupKey kvs "tipo").getD (.str "")),
                  csvStr ((lookupKey kvs "ip").getD (.str "")),
                  jsonDumps ((lookupKey kvs "detalle").getD (.obj [])),
                  csvStr ((lookupKey kvs "user_agent").getD (.str ""))] ∧
        filas.getD i "" = String.intercalate ";" (campos.map csvQuote) ++ "\x0d\n" :=
  csv_formato [Json.obj []] "2026-10-12" ⟨"2026-10-12", 1, [(Json.str "desconocido", 1)]⟩
    "fecha;tipo;ip;detalle;user_agent\x0d\n;;;\x7b\x7d;\x0d\n" (by decide)

/-- C10: a parsed event record lacking the `tipo` field is tallied under the
default type string `desconocido`, while its CSV row renders the type column
as the empty string; the two defaults differ, so the per-type count of such an
event is not reconstructible from its CSV row. -/
theorem tipo_ausente_discrepancia (kvs : List (String × Json)) (fechaStr : String)
    (hno : lookupKey kvs "tipo" = none) :
    dictGet (.obj kvs) "tipo" (.str "desconocido") = .ok (.str "desconocido") ∧
    (∃ campos, camposCsv (.obj kvs) = .ok campos ∧ campos.getD 1 "desconocido" = "") ∧
    (∃ csvt, construir_resumen_y_csv [.obj kvs] fechaStr =
      .ok (⟨fechaStr, 1, [(.str "desconocido", 1)]⟩, csvt)) ∧
    ("desconocido" : String) ≠ "" := by
  refine ⟨?_, ?_, ?_, by decide⟩
  · simp [dictGet, hno]
  · exact ⟨_, camposCsv_obj kvs, by simp [hno, csvStr]⟩
  · have ht : tallyTipos [Json.obj kvs] [] = .ok [(.str "desconocido", 1)] := by
      simp [tallyTipos, dictGet, hno, bump]
    have hcam := camposCsv_obj kvs
    refine ⟨cabeceraCsv ++ String.join
      [csvRow [csvStr ((lookupKey kvs "fecha").getD (.str "")),
               csvStr ((lookupKey kvs "tipo").getD (.str "")),
               csvStr ((lookupKey kvs "ip").getD (.str "")),
               jsonDumps ((lookupKey kvs "detalle").getD (.obj [])),
               csvStr ((lookupKey kvs "user_agent").getD (.str ""))]], ?_⟩
    have hfil : filasCsv [Json.obj kvs] = .ok
        [csvRow [csvStr ((lookupKey kvs "fecha").getD (.str "")),
                 csvStr ((lookupKey kvs "tipo").getD (.str "")),
                 csvStr ((lookupKey kvs "ip").getD (.str "")),
                 jsonDumps ((lookupKey kvs "detalle").getD (.obj [])),
                 csvStr ((lookupKey kvs "user_agent").getD (.str ""))]] := by
      unfold filasCsv
      rw [hcam]
      simp [filasCsv]
    unfold construir_resumen_y_csv
    rw [ht, hfil]
    rfl

/-- Witness for C10 at the empty event dict. -/
theorem tipo_ausente_discrepancia_witness :
    dictGet (.obj []) "tipo" (.str "desconocido") = .ok (.str "desconocido") ∧
    (∃ campos, camposCsv (.obj []) = .ok campos ∧ campos.getD 1 "desconocido" = "") ∧
    (∃ csvt, construir_resumen_y_csv [.obj []] "2026-10-12" =
      .ok (⟨"2026-10-12", 1, [(.str "desconocido", 1)]⟩, csvt)) ∧
    ("desconocido" : String) ≠ "" :=
  tipo_ausente_discrepancia [] "2026-10-12" (by decide)

/-- Counterexample to C1: with the mail configuration fully absent, a concrete
aggregation request succeeds as a no-op on the notification side but reports
`email_enviado = true`, not `false` as the claim states. -/
theorem correo_no_configurado_cex :
    resumen_diario ⟨some "geoipt-logs", none, none, none⟩ none "2026-10-12" [] (.ok ()) =
      .ok ⟨200, "2026-10-12", 0, [], true, none⟩ ∧
    (resumen_diario ⟨some "geoipt-logs", none, none, none⟩ none "2026-10-12" [] (.ok ())).map
        Respuesta.email_enviado ≠ .ok false :=
  ⟨by decide, by decide⟩

/-- C1 (amended): for every aggregation request made when the mail
configuration is not fully present, the notification step is a no-op that is
not an error (it returns without attempting any send), the aggregation
succeeds with status 200 and its result does not depend on the SMTP outcome,
and the returned summary reports `email_enviado = true` with no error text. -/
theorem correo_no_configurado (cfg : Config) (fechaParam : Option String)
    (hoy : String) (blobs : List (Option Json)) (envioSmtp : Except String Unit)
    (r : Respuesta)
    (hmail : (truthy cfg.smtpUser && truthy cfg.smtpPass && truthy cfg.smtpTo) = false)
    (hok : resumen_diario cfg fechaParam hoy blobs envioSmtp = .ok r) :
    (∀ res csvt f envio, enviar_correo_resumen cfg res csvt f envio = .ok none) ∧
    r.email_enviado = true ∧ r.email_error = none ∧ r.status = 200 ∧
    (∀ envio2, resumen_diario cfg fechaParam hoy blobs envio2 = .ok r) := by
  have hnoop : ∀ (res : Resumen) (csvt f : String) (envio : Except String Unit),
      enviar_correo_resumen cfg res csvt f envio = .ok none := by
    intro res csvt f envio
    unfold enviar_correo_resumen
    rw [hmail]
    rfl
  obtain ⟨eventos, resumen, csvt, hleer, hcons, hr⟩ := resumen_diario_ok_inv hok
  rw [hnoop resumen csvt (fechaEfectiva fechaParam hoy) envioSmtp] at hr
  refine ⟨hnoop, by rw [hr]; rfl, by rw [hr]; rfl, by rw [hr]; rfl, ?_⟩
  intro envio2
  rw [resumen_diario_eq envio2 hleer hcons,
    hnoop resumen csvt (fechaEfectiva fechaParam hoy) envio2, hr]

/-- Witness for the amended C1 at a concrete unconfigured-mail request. -/
theorem correo_no_configurado_witness :
    (∀ res csvt f envio,
      enviar_correo_resumen ⟨some "geoipt-logs", none, none, none⟩ res csvt f envio =
        .ok none) ∧
    (Respuesta.mk 200 "2026-10-12" 0 [] true none).email_enviado = true ∧
    (Respuesta.mk 200 "2026-10-12" 0 [] true none).email_error = none ∧
    (Respuesta.mk 200 "2026-10-12" 0 [] true none).status = 200 ∧
    (∀ envio2, resumen_diario ⟨some "geoipt-logs", none, none, none⟩ none "2026-10-12"
      [] envio2 = .ok ⟨200, "2026-10-12", 0, [], true, none⟩) :=
  correo_no_configurado ⟨some "geoipt-logs", none, none, none⟩ none "2026-10-12" []
    (.error "connection refused") ⟨200, "2026-10-12", 0, [], true, none⟩
    (by decide) (by decide)

theorem respuestaCorreo_campos (res : Resumen) (x : Except String (Option EmailMsg)) :
    (respuestaCorreo res x).status = 200 ∧ (respuestaCorreo res x).fecha = res.fecha ∧
    (respuestaCorreo res x).total_eventos = res.total_eventos ∧
    (respuestaCorreo res x).por_tipo = res.por_tipo := by
  cases x <;> simp [respuestaCorreo]

/-- C5: when the summary is built, the aggregation endpoint returns it with
HTTP status 200 for every SMTP outcome (so a notification failure is never
surfaced as an HTTP failure status); when the mail configuration is present
and the send raises with text `m`, the response still carries the summary and
reports `email_enviado = false` with the populated error string `m`. -/
theorem correo_fallido_http200 (cfg : Config) (fechaParam : Option String)
    (hoy : String) (blobs : List (Option Json)) (eventos : List Json)
    (res : Resumen) (csvt : String)
    (hleer : leer_eventos_fecha cfg blobs = .ok eventos)
    (hcons : construir_resumen_y_csv eventos (fechaEfectiva fechaParam hoy) = .ok (res, csvt)) :
    (∀ envio, ∃ r, resumen_diario cfg fechaParam hoy blobs envio = .ok r ∧
      r.status = 200 ∧ r.fecha = res.fecha ∧
      r.total_eventos = res.total_eventos ∧ r.por_tipo = res.por_tipo) ∧
    (∀ m, (truthy cfg.smtpUser && truthy cfg.smtpPass && truthy cfg.smtpTo) = true →
      m ≠ "" →
      ∃ r, resumen_diario cfg fechaParam hoy blobs (.error m) = .ok r ∧
        r.status = 200 ∧ r.fecha = res.fecha ∧
        r.total_eventos = res.total_eventos ∧ r.por_tipo = res.por_tipo ∧
        r.email_enviado = false ∧ r.email_error = some m ∧
        ∃ s, r.email_error = some s ∧ s ≠ "") := by
  constructor
  · intro envio
    obtain ⟨h1, h2, h3, h4⟩ := respuestaCorreo_campos res
      (enviar_correo_resumen cfg res csvt (fechaEfectiva fechaParam hoy) envio)
    exact ⟨_, resumen_diario_eq envio hleer hcons, h1, h2, h3, h4⟩
  · intro m hcfg hm
    have hsend : enviar_correo_resumen cfg res csvt (fechaEfectiva fechaParam hoy)
        (.error m) = .error m := by
      unfold enviar_correo_resumen
      rw [hcfg]
      rfl
    refine ⟨_, resumen_diario_eq (.error m) hleer hcons, ?_⟩
    rw [hsend]
    exact ⟨rfl, rfl, rfl, rfl, rfl, rfl, m, rfl, hm⟩

/-- Witness for C5 at a concrete configured-mail request with a failing send. -/
theorem correo_fallido_http200_witness :
    (∀ envio, ∃ r, resumen_diario ⟨some "geoipt-logs", some "u", some "p", some "d"⟩
        none "2026-10-12" [] envio = .ok r ∧
      r.status = 200 ∧ r.fecha = (Resumen.mk "2026-10-12" 0 []).fecha ∧
      r.total_eventos = (Resumen.mk "2026-10-12" 0 []).total_eventos ∧
      r.por_tipo = (Resumen.mk "2026-10-12" 0 []).por_tipo) ∧
    (∀ m, (truthy (some "u") && truthy (some "p") && truthy (some "d")) = true →
      m ≠ "" →
      ∃ r, resumen_diario ⟨some "geoipt-logs", some "u", some "p", some "d"⟩
          none "2026-10-12" [] (.error m) = .ok r ∧
        r.status = 200 ∧ r.fecha = (Resumen.mk "2026-10-12" 0 []).fecha ∧
        r.total_eventos = (Resumen.mk "2026-10-12" 0 []).total_eventos ∧
        r.por_tipo = (Resumen.mk "2026-10-12" 0 []).por_tipo ∧
        r.email_enviado = false ∧ r.email_error = some m ∧
        ∃ s, r.email_error = some s ∧ s ≠ "") :=
  correo_fallido_http200 ⟨some "geoipt-logs", some "u", some "p", some "d"⟩
    none "2026-10-12" [] [] ⟨"2026-10-12", 0, []⟩
    "fecha;tipo;ip;detalle;user_agent\x0d\n" (by decide) (by decide)

theorem digit_char_isDigit (k : Nat) (h : k < 10) :
    (Char.ofNat (48 + k)).isDigit = true := by
  interval_cases k <;> decide

theorem pad_data (w n : Nat) :
    (pad w n).toList.length = w ∧ ∀ c ∈ (pad w n).toList, c.isDigit = true := by
  induction w generalizing n with
  | zero => simp [pad]
  | succ w ih =>
      obtain ⟨ihl, ihd⟩ := ih (n / 10)
      have ihl2 : (pad w (n / 10)).length = w := ihl
      refine ⟨by simp [pad, ihl2], ?_⟩
      intro c hc
      simp [pad] at hc
      rcases hc with hc | hc
      · exact ihd c hc
      · subst hc
        exact digit_char_isDigit _ (Nat.mod_lt _ (by norm_num))

theorem tomarLit_append (l rest : List Char) : tomarLit l (l ++ rest) = some rest := by
  induction l with
  | nil => rfl
  | cons c ls ih => simp [tomarLit, ih]

theorem tomarSat_todos {p : Char → Bool} (ds : List Char)
    (hds : ∀ c ∈ ds, p c = true) (rest : List Char) :
    tomarSat p ds.length (ds ++ rest) = some rest := by
  induction ds with
  | nil => rfl
  | cons c cs ih =>
      simp only [List.length_cons, List.cons_append, tomarSat]
      rw [hds c (by simp)]
      simp only [if_true]
      exact ih (fun c2 hc2 => hds c2 (by simp [hc2]))

theorem tomarSat_pad (w n : Nat) (rest : List Char) :
    tomarSat Char.isDigit w ((pad w n).toList ++ rest) = some rest := by
  obtain ⟨hl, hd⟩ := pad_data w n
  calc tomarSat Char.isDigit w ((pad w n).toList ++ rest)
      = tomarSat Char.isDigit (pad w n).toList.length ((pad w n).toList ++ rest) := by rw [hl]
    _ = some rest := tomarSat_todos _ hd rest

theorem esSufijoHex6_inv {s : String} (h : esSufijoHex6 s = true) :
    s.toList.length = 6 ∧ ∀ c ∈ s.toList, esHexMinuscula c = true := by
  unfold esSufijoHex6 at h
  simp [Bool.and_eq_true, List.all_eq_true] at h
  exact ⟨h.1, h.2⟩

theorem nombreBlob_toList (ahora ahoraCarpeta : FechaHora) (sufijo : String) :
    (nombreBlob ahora ahoraCarpeta sufijo).toList =
      "events/".toList ++ ((pad 4 ahoraCarpeta.year).toList ++ ('-' ::
        ((pad 2 ahoraCarpeta.month).toList ++ ('-' ::
        ((pad 2 ahoraCarpeta.day).toList ++ ('/' ::
        ((pad 4 ahora.year).toList ++ ((pad 2 ahora.month).toList ++
        ((pad 2 ahora.day).toList ++ ('T' ::
        ((pad 2 ahora.hour).toList ++ ((pad 2 ahora.minute).toList ++
        ((pad 2 ahora.second).toList ++ ('_' ::
        (sufijo.toList ++ ".json".toList))))))))))))))) := by
  simp [nombreBlob, today_str, tsCompacto, List.append_assoc,
    (show ("-" : String).toList = ['-'] from rfl),
    (show ("/" : String).toList = ['/'] from rfl),
    (show ("T" : String).toList = ['T'] from rfl),
    (show ("_" : String).toList = ['_'] from rfl)]

theorem tomarSat_tres_pads (w1 w2 w3 n1 n2 n3 : Nat) (rest : List Char) :
    tomarSat Char.isDigit (w1 + w2 + w3)
      ((pad w1 n1).toList ++ ((pad w2 n2).toList ++ ((pad w3 n3).toList ++ rest))) =
      some rest := by
  obtain ⟨h1l, h1d⟩ := pad_data w1 n1
  obtain ⟨h2l, h2d⟩ := pad_data w2 n2
  obtain ⟨h3l, h3d⟩ := pad_data w3 n3
  have hassoc : (pad w1 n1).toList ++ ((pad w2 n2).toList ++ ((pad w3 n3).toList ++ rest)) =
      ((pad w1 n1).toList ++ (pad w2 n2).toList ++ (pad w3 n3).toList) ++ rest := by
    simp [List.append_assoc]
  have hlen : ((pad w1 n1).toList ++ (pad w2 n2).toList ++ (pad w3 n3).toList).length =
      w1 + w2 + w3 := by
    rw [List.length_append, List.length_append, h1l, h2l, h3l]
  calc tomarSat Char.isDigit (w1 + w2 + w3)
        ((pad w1 n1).toList ++ ((pad w2 n2).toList ++ ((pad w3 n3).toList ++ rest)))
      = tomarSat Char.isDigit
          ((pad w1 n1).toList ++ (pad w2 n2).toList ++ (pad w3 n3).toList).length
          (((pad w1 n1).toList ++ (pad w2 n2).toList ++ (pad w3 n3).toList) ++ rest) := by
        rw [hlen, hassoc]
    _ = some rest := by
        refine tomarSat_todos _ ?_ rest
        intro c hc
        rw [List.mem_append, List.mem_append] at hc
        rcases hc with (hc | hc) | hc
        exacts [h1d c hc, h2d c hc, h3d c hc]

theorem tomarLit_uno (c : Char) (rest : List Char) :
    tomarLit [c] (c :: rest) = some rest := by
  simp [tomarLit]

theorem tomarLit_self (l : List Char) : tomarLit l l = some [] := by
  simpa using tomarLit_append l []

theorem tomarSat_ocho (n1 n2 n3 : Nat) (rest : List Char) :
    tomarSat Char.isDigit 8
      ((pad 4 n1).toList ++ ((pad 2 n2).toList ++ ((pad 2 n3).toList ++ rest))) =
      some rest := by
  simpa using tomarSat_tres_pads 4 2 2 n1 n2 n3 rest

theorem tomarSat_seis (n1 n2 n3 : Nat) (rest : List Char) :
    tomarSat Char.isDigit 6
      ((pad 2 n1).toList ++ ((pad 2 n2).toList ++ ((pad 2 n3).toList ++ rest))) =
      some rest := by
  simpa using tomarSat_tres_pads 2 2 2 n1 n2 n3 rest

theorem esquemaClaveJson_nombreBlob (ahora ahoraCarpeta : FechaHora) (sufijo : String)
    (hsuf : esSufijoHex6 sufijo = true) :
    esquemaClaveJson (nombreBlob ahora ahoraCarpeta sufijo) = true := by
  obtain ⟨h6, hhex⟩ := esSufijoHex6_inv hsuf
  have hsufijo : ∀ rest, tomarSat esHexMinuscula 6 (sufijo.toList ++ rest) = some rest := by
    intro rest
    calc tomarSat esHexMinuscula 6 (sufijo.toList ++ rest)
        = tomarSat esHexMinuscula sufijo.toList.length (sufijo.toList ++ rest) := by rw [h6]
      _ = some rest := tomarSat_todos _ hhex rest
  simp only [esquemaClaveJson, decide_eq_true_eq]
  rw [nombreBlob_toList]
  simp only [Option.bind_eq_bind, Option.some_bind, tomarLit_append, tomarSat_pad,
    tomarLit_uno, tomarSat_ocho, tomarSat_seis, hsufijo, tomarLit_self]

/-- Counterexample to C8: a concrete successful ingestion writes its single
object under a key carrying a trailing `.json` extension, which the key
scheme stated by the spec (no extension after the 6-hex-char suffix) rejects. -/
theorem clave_evento_cex :
    (log_evento ⟨some "geoipt-logs", none, none, none⟩
        (some (.obj [("tipo", .str "click")]))
        ⟨2026, 10, 12, 3, 4, 5, 0⟩ ⟨2026, 10, 12, 3, 4, 5, 0⟩
        "a1b2c3" "203.0.113.5" "Mozilla").map (fun q => q.1.nombre) =
      .ok "events/2026-10-12/20261012T030405_a1b2c3.json" ∧
    esSufijoHex6 "a1b2c3" = true ∧
    esquemaClaveSpec "events/2026-10-12/20261012T030405_a1b2c3.json" = false :=
  ⟨by decide, by decide, by decide⟩

/-- C8 (amended): every successfully stored event is written as exactly one
JSON-serialized object whose key has the form
`events/<YYYY-MM-DD>/<YYYYMMDDTHHMMSS>_<6-hex-char-suffix>.json`, where the
date folder is the UTC date at the second `now` call and the suffix is the
random 6-hex-character disambiguator. -/
theorem clave_evento (cfg : Config) (datos : Option Json)
    (ahora ahoraCarpeta : FechaHora) (sufijo ip ua : String)
    (blob : BlobEscrito) (ev : Json)
    (hsuf : esSufijoHex6 sufijo = true)
    (hok : log_evento cfg datos ahora ahoraCarpeta sufijo ip ua = .ok (blob, ev)) :
    blob.nombre = "events/" ++ today_str ahoraCarpeta ++ "/" ++ tsCompacto ahora
      ++ "_" ++ sufijo ++ ".json" ∧
    esquemaClaveJson blob.nombre = true ∧
    blob.contenido = jsonDumps ev := by
  unfold log_evento at hok
  cases hget1 : dictGet (datosEfectivos datos) "tipo" (.str "desconocido") with
  | error e => simp only [hget1] at hok; exact Except.noConfusion hok
  | ok tipo =>
      simp only [hget1] at hok
      cases hget2 : dictGet (datosEfectivos datos) "detalle" (.obj []) with
      | error e => simp only [hget2] at hok; exact Except.noConfusion hok
      | ok detalle =>
          simp only [hget2] at hok
          cases hb : truthy cfg.logsBucket with
          | false => simp only [hb, Bool.false_eq_true, if_false] at hok; exact Except.noConfusion hok
          | true =>
              simp only [hb, if_true, Except.ok.injEq, Prod.mk.injEq] at hok
              obtain ⟨hblob, hev⟩ := hok
              subst hblob
              subst hev
              exact ⟨rfl, esquemaClaveJson_nombreBlob ahora ahoraCarpeta sufijo hsuf, rfl⟩

/-- Witness for the amended C8 at a concrete successful ingestion. -/
theorem clave_evento_witness :
    (BlobEscrito.mk "events/2026-10-12/20261012T030405_a1b2c3.json"
        "\x7b\"tipo\": \"click\", \"detalle\": \x7b\x7d, \"fecha\": \"2026-10-12T03:04:05+00:00\", \"ip\": \"203.0.113.5\", \"user_agent\": \"Mozilla\"\x7d").nombre =
      "events/" ++ today_str ⟨2026, 10, 12, 3, 4, 5, 0⟩ ++ "/"
        ++ tsCompacto ⟨2026, 10, 12, 3, 4, 5, 0⟩ ++ "_" ++ "a1b2c3" ++ ".json" ∧
    esquemaClaveJson (BlobEscrito.mk "events/2026-10-12/20261012T030405_a1b2c3.json"
        "\x7b\"tipo\": \"click\", \"detalle\": \x7b\x7d, \"fecha\": \"2026-10-12T03:04:05+00:00\", \"ip\": \"203.0.113.5\", \"user_agent\": \"Mozilla\"\x7d").nombre = true ∧
    (BlobEscrito.mk "events/2026-10-12/20261012T030405_a1b2c3.json"
        "\x7b\"tipo\": \"click\", \"detalle\": \x7b\x7d, \"fecha\": \"2026-10-12T03:04:05+00:00\", \"ip\": \"203.0.113.5\", \"user_agent\": \"Mozilla\"\x7d").contenido =
      jsonDumps (.obj [("tipo", .str "click"), ("detalle", .obj []),
        ("fecha", .str "2026-10-12T03:04:05+00:00"),
        ("ip", .str "203.0.113.5"), ("user_agent", .str "Mozilla")]) :=
  clave_evento ⟨some "geoipt-logs", none, none, none⟩
    (some (.obj [("tipo", .str "click")]))
    ⟨2026, 10, 12, 3, 4, 5, 0⟩ ⟨2026, 10, 12, 3, 4, 5, 0⟩ "a1b2c3" "203.0.113.5" "Mozilla"
    (BlobEscrito.mk "events/2026-10-12/20261012T030405_a1b2c3.json"
        "\x7b\"tipo\": \"click\", \"detalle\": \x7b\x7d, \"fecha\": \"2026-10-12T03:04:05+00:00\", \"ip\": \"203.0.113.5\", \"user_agent\": \"Mozilla\"\x7d")
    (.obj [("tipo", .str "click"), ("detalle", .obj []),
        ("fecha", .str "2026-10-12T03:04:05+00:00"),
        ("ip", .str "203.0.113.5"), ("user_agent", .str "Mozilla")])
    (by decide) (by decide)

/-- The first submission body of the concrete scenario of the spec. -/
def cuerpoClick1 : Json := .obj [("tipo", .str "click"), ("detalle", .obj [("x", .num 1)])]

/-- The second submission body of the concrete scenario of the spec. -/
def cuerpoClick2 : Json := .obj [("tipo", .str "click"), ("detalle", .obj [("x", .num 2)])]

/-- The third submission body of the concrete scenario of the spec: no `tipo`. -/
def cuerpoSinTipo : Json := .obj [("detalle", .obj [])]

/-- The UTC instant used for the scenario submissions. -/
def instanteEscenario : FechaHora := ⟨2026, 10, 12, 9, 0, 0, 0⟩

/-- The stored event produced by the first scenario submission. -/
def eventoClick1 : Json := .obj
  [("tipo", .str "click"), ("detalle", .obj [("x", .num 1)]),
   ("fecha", .str "2026-10-12T09:00:00+00:00"),
   ("ip", .str "203.0.113.5"), ("user_agent", .str "Mozilla")]

/-- The stored event produced by the second scenario submission. -/
def eventoClick2 : Json := .obj
  [("tipo", .str "click"), ("detalle", .obj [("x", .num 2)]),
   ("fecha", .str "2026-10-12T09:00:00+00:00"),
   ("ip", .str "203.0.113.5"), ("user_agent", .str "Mozilla")]

/-- The stored event produced by the third scenario submission, with the
defaulted type. -/
def eventoSinTipo : Json := .obj
  [("tipo", .str "desconocido"), ("detalle", .obj []),
   ("fecha", .str "2026-10-12T09:00:00+00:00"),
   ("ip", .str "203.0.113.5"), ("user_agent", .str "Mozilla")]

/-- Counterexample to C2: running the concrete scenario of the spec through
ingestion and aggregation yields `por_tipo` exactly
`[click: 2, desconocido: 1]` — the missing type defaults to the string
`desconocido`, not `unknown`, so the mapping claimed by the spec does not
appear and the key `unknown` has count 0. -/
theorem resumen_unknown_cex :
    (log_evento ⟨some "geoipt-logs", none, none, none⟩ (some cuerpoClick1)
        instanteEscenario instanteEscenario "aaaaaa" "203.0.113.5" "Mozilla").map Prod.snd =
      .ok eventoClick1 ∧
    (log_evento ⟨some "geoipt-logs", none, none, none⟩ (some cuerpoClick2)
        instanteEscenario instanteEscenario "bbbbbb" "203.0.113.5" "Mozilla").map Prod.snd =
      .ok eventoClick2 ∧
    (log_evento ⟨some "geoipt-logs", none, none, none⟩ (some cuerpoSinTipo)
        instanteEscenario instanteEscenario "cccccc" "203.0.113.5" "Mozilla").map Prod.snd =
      .ok eventoSinTipo ∧
    (construir_resumen_y_csv [eventoClick1, eventoClick2, eventoSinTipo] "2026-10-12").map
        (fun p => p.1.total_eventos) = .ok 3 ∧
    (construir_resumen_y_csv [eventoClick1, eventoClick2, eventoSinTipo] "2026-10-12").map
        (fun p => p.1.por_tipo) = .ok [(.str "click", 2), (.str "desconocido", 1)] ∧
    (construir_resumen_y_csv [eventoClick1, eventoClick2, eventoSinTipo] "2026-10-12").map
        (fun p => p.1.por_tipo) ≠ .ok [(.str "click", 2), (.str "unknown", 1)] ∧
    cuenta [(Json.str "click", 2), (Json.str "desconocido", 1)] (.str "unknown") = 0 :=
  ⟨by decide, by decide, by decide, by decide, by decide, by decide, by decide⟩

/-- C2 (amended): an event whose submission lacks a `tipo` field is stored
with the default type `desconocido`, and the aggregation tally applies the
same `desconocido` default to stored records without a type; the concrete
scenario (two `click` submissions and one without `tipo` on the same UTC day)
aggregates to `total_eventos = 3` with `por_tipo` exactly
`[click: 2, desconocido: 1]`. -/
theorem tipo_desconocido_por_defecto (kvs : List (String × Json)) (cfg : Config)
    (ahora ahoraCarpeta : FechaHora) (sufijo ip ua : String)
    (blob : BlobEscrito) (ev : Json)
    (hno : lookupKey kvs "tipo" = none)
    (htruthy : jsonTruthy (.obj kvs) = true)
    (hok : log_evento cfg (some (.obj kvs)) ahora ahoraCarpeta sufijo ip ua = .ok (blob, ev)) :
    dictGet ev "tipo" (.str "") = .ok (.str "desconocido") ∧
    dictGet (.obj kvs) "tipo" (.str "desconocido") = .ok (.str "desconocido") ∧
    (construir_resumen_y_csv [eventoClick1, eventoClick2, eventoSinTipo] "2026-10-12").map
        (fun p => (p.1.total_eventos, p.1.por_tipo)) =
      .ok (3, [(.str "click", 2), (.str "desconocido", 1)]) := by
  have hdata : datosEfectivos (some (.obj kvs)) = .obj kvs := by
    simp [datosEfectivos, htruthy]
  have hget1 : dictGet (.obj kvs) "tipo" (.str "desconocido") = .ok (.str "desconocido") := by
    simp [dictGet, hno]
  refine ⟨?_, hget1, by decide⟩
  unfold log_evento at hok
  rw [hdata] at hok
  simp only [hget1] at hok
  cases hget2 : dictGet (.obj kvs) "detalle" (.obj []) with
  | error e => simp only [hget2] at hok; exact Except.noConfusion hok
  | ok detalle =>
      simp only [hget2] at hok
      cases hb : truthy cfg.logsBucket with
      | false =>
          simp only [hb, Bool.false_eq_true, if_false] at hok
          exact Except.noConfusion hok
      | true =>
          simp only [hb, if_true, Except.ok.injEq, Prod.mk.injEq] at hok
          obtain ⟨hblob, hev⟩ := hok
          subst hev
          simp [eventoDe, dictGet, lookupKey]

/-- Witness for the amended C2 at the third scenario submission. -/
theorem tipo_desconocido_por_defecto_witness :
    dictGet eventoSinTipo "tipo" (.str "") = .ok (.str "desconocido") ∧
    dictGet (.obj [("detalle", Json.obj [])]) "tipo" (.str "desconocido") =
      .ok (.str "desconocido") ∧
    (construir_resumen_y_csv [eventoClick1, eventoClick2, eventoSinTipo] "2026-10-12").map
        (fun p => (p.1.total_eventos, p.1.por_tipo)) =
      .ok (3, [(.str "click", 2), (.str "desconocido", 1)]) :=
  tipo_desconocido_por_defecto [("detalle", Json.obj [])]
    ⟨some "geoipt-logs", none, none, none⟩ instanteEscenario instanteEscenario
    "cccccc" "203.0.113.5" "Mozilla"
    (BlobEscrito.mk "events/2026-10-12/20261012T090000_cccccc.json"
      "\x7b\"tipo\": \"desconocido\", \"detalle\": \x7b\x7d, \"fecha\": \"2026-10-12T09:00:00+00:00\", \"ip\": \"203.0.113.5\", \"user_agent\": \"Mozilla\"\x7d")
    eventoSinTipo (by decide) (by decide) (by decide)
